import Mathlib

/-
Verification of the authentication and identity-provisioning subsystem of the
LearnHub backend, as a shallow embedding in Lean.

Each section embeds one group of source functions:
  - identity provisioning      (services/api/deps/auth.py, get_current_user_id)
  - JWKS key cache             (services/api/security/jwks_client.py)
  - bearer-token verification  (services/api/security/jwt_verify.py)
  - auth gateway middleware    (services/api/middleware/auth.py)
  - refresh-token lifecycle    (shared/auth.py)
  - SMS OTP send and verify    (services/api/main.py)
  - legacy header handling     (services/api/main.py, get_current_user)

Database tables are lists of row records; redis counters are association
lists; SQLAlchemy first()-queries are List.find?; nondeterministic inputs
(fresh primary keys, concurrently committed rows, network fetch results,
random token material) are explicit parameters.
-/

namespace LearnHub

/-! ## Identity provisioning (services/api/deps/auth.py) -/

/-- Row of the users table (shared/models.py, class User). -/
structure UserRow where
  id : String
  nickname : Option String
  avatar_url : Option String
deriving DecidableEq

/-- Row of the auth_identities table (shared/models.py, class AuthIdentity).
The pair (provider, provider_uid) carries a storage-level uniqueness
constraint (uq_auth_identity_provider_uid). -/
structure IdentityRow where
  user_id : String
  provider : String
  provider_uid : String
deriving DecidableEq

/-- The slice of the relational store that provisioning touches. -/
structure ProvDb where
  users : List UserRow
  identities : List IdentityRow
deriving DecidableEq

/-- Embedding of the identity lookup query
db.query(AuthIdentity).filter(provider == p, provider_uid == s).first(). -/
def find_identity (ids : List IdentityRow) (provider sub : String) : Option IdentityRow :=
  ids.find? (fun i => i.provider == provider && i.provider_uid == sub)

/-- Profile claims consumed by provisioning (claims.get name / picture). -/
structure ProfileClaims where
  name : Option String
  picture : Option String
deriving DecidableEq

/-- Embedding of the provisioning core of get_current_user_id
(services/api/deps/auth.py lines 19-56).  The function commits the new User
row first, then attempts to commit the AuthIdentity row.  Nondeterministic
inputs are explicit: newUid is the fresh primary key of the User row;
interference is the list of identity rows committed by concurrent requests
between the two commits of this request; conflict models whether the
identity INSERT raises IntegrityError.  The storage uniqueness constraint
forces conflict = true whenever a duplicate (provider, provider_uid) row
exists at commit time, which theorems state as a side condition.  On
IntegrityError the code calls db.rollback(), which discards only the
pending identity INSERT: the User row was committed in the previous
transaction and stays.  The error value 500 embeds
HTTPException(status_code=500, detail="identity creation failed"). -/
def resolve_or_create (db : ProvDb) (provider sub : String) (claims : ProfileClaims)
    (newUid : String) (interference : List IdentityRow) (conflict : Bool) :
    Except Nat String × ProvDb :=
  match find_identity db.identities provider sub with
  | some i => (Except.ok i.user_id, db)
  | none =>
    let db1 : ProvDb :=
      { db with users := db.users ++ [{ id := newUid, nickname := claims.name, avatar_url := claims.picture }] }
    let db2 : ProvDb := { db1 with identities := db1.identities ++ interference }
    if conflict then
      match find_identity db2.identities provider sub with
      | some j => (Except.ok j.user_id, db2)
      | none => (Except.error 500, db2)
    else
      (Except.ok newUid,
        { db2 with identities := db2.identities ++ [{ user_id := newUid, provider := provider, provider_uid := sub }] })

/-- Splitting an identity lookup across an append of identity lists. -/
theorem find_identity_append (l1 l2 : List IdentityRow) (p s : String) :
    find_identity (l1 ++ l2) p s =
      match find_identity l1 p s with
      | some i => some i
      | none => find_identity l2 p s := by
  induction l1 with
  | nil => simp [find_identity]
  | cons a t ih =>
    simp only [find_identity, List.cons_append, List.find?]
    cases a.provider == p && a.provider_uid == s with
    | true => rfl
    | false => exact ih

/-- Concrete database for the C1 counterexample: one pre-existing user u1,
no identities yet. -/
def c1_db : ProvDb :=
  { users := [{ id := "u1", nickname := none, avatar_url := none }], identities := [] }

/-- A concurrent request committed the identity for provider_uid sub-1,
owned by user u1, between the two commits of this request. -/
def c1_interference : List IdentityRow :=
  [{ user_id := "u1", provider := "better_auth", provider_uid := "sub-1" }]

/-- The provisioning run of the C1 counterexample: lookup misses, the fresh
user u2 is committed, the identity insert then violates the uniqueness
constraint. -/
def c1_run : Except Nat String × ProvDb :=
  resolve_or_create c1_db "better_auth" "sub-1" { name := none, picture := none }
    "u2" c1_interference true

/-- C1 counterexample: after a uniqueness violation the provisioner does
return the user_id of the existing owner (u1), but the freshly created User
row u2 persists in the database, refuting the asserted part of the claim
that the newly created User does not persist (the rollback undoes only the
pending identity insert; the user commit already happened). -/
theorem c1_user_persists_after_conflict :
    c1_run.fst = Except.ok "u1"
    ∧ c1_run.snd.users.any (fun u => u.id == "u2") = true :=
  ⟨rfl, rfl⟩

/-- C1 (amended): when the identity lookup misses and the identity insert
raises a uniqueness violation, the provisioner rolls back only the pending
identity insert — the already-committed User row persists (orphaned) and no
identity row of this request is stored — then re-queries by
(provider, provider_uid) and returns the user_id of the existing owner; if
the re-query still finds no identity, it fails with HTTP 500. -/
theorem resolve_or_create_conflict_behavior
    (db : ProvDb) (provider sub : String) (claims : ProfileClaims)
    (newUid : String) (interference : List IdentityRow)
    (hmiss : find_identity db.identities provider sub = none) :
    (resolve_or_create db provider sub claims newUid interference true).snd.users
      = db.users ++ [{ id := newUid, nickname := claims.name, avatar_url := claims.picture }]
    ∧ (resolve_or_create db provider sub claims newUid interference true).snd.identities
      = db.identities ++ interference
    ∧ (∀ j, find_identity (db.identities ++ interference) provider sub = some j →
        (resolve_or_create db provider sub claims newUid interference true).fst
          = Except.ok j.user_id)
    ∧ (find_identity (db.identities ++ interference) provider sub = none →
        (resolve_or_create db provider sub claims newUid interference true).fst
          = Except.error 500) := by
  unfold resolve_or_create
  rw [hmiss]
  cases h2 : find_identity (db.identities ++ interference) provider sub with
  | some j => simp [h2]
  | none => simp [h2]

/-- Witness for the amended C1 theorem at a concrete input: empty database,
a concurrent identity for user u1 arriving between the commits. -/
theorem resolve_or_create_conflict_behavior_witness :
    (resolve_or_create { users := [], identities := [] } "p" "s"
        { name := none, picture := none } "u2"
        [{ user_id := "u1", provider := "p", provider_uid := "s" }] true).snd.users
      = [] ++ [{ id := "u2", nickname := none, avatar_url := none }]
    ∧ (resolve_or_create { users := [], identities := [] } "p" "s"
        { name := none, picture := none } "u2"
        [{ user_id := "u1", provider := "p", provider_uid := "s" }] true).snd.identities
      = [] ++ [{ user_id := "u1", provider := "p", provider_uid := "s" }]
    ∧ (∀ j, find_identity ([] ++ [{ user_id := "u1", provider := "p", provider_uid := "s" }]) "p" "s" = some j →
        (resolve_or_create { users := [], identities := [] } "p" "s"
          { name := none, picture := none } "u2"
          [{ user_id := "u1", provider := "p", provider_uid := "s" }] true).fst
          = Except.ok j.user_id)
    ∧ (find_identity ([] ++ [{ user_id := "u1", provider := "p", provider_uid := "s" }]) "p" "s" = none →
        (resolve_or_create { users := [], identities := [] } "p" "s"
          { name := none, picture := none } "u2"
          [{ user_id := "u1", provider := "p", provider_uid := "s" }] true).fst
          = Except.error 500) :=
  resolve_or_create_conflict_behavior { users := [], identities := [] } "p" "s"
    { name := none, picture := none } "u2"
    [{ user_id := "u1", provider := "p", provider_uid := "s" }] rfl

/-- Helper: a call that finds the identity returns its owner and leaves the
database unchanged, whatever the nondeterministic inputs are. -/
theorem resolve_or_create_hit (db : ProvDb) (provider sub : String)
    (claims : ProfileClaims) (newUid : String) (interference : List IdentityRow)
    (conflict : Bool) (i : IdentityRow)
    (hhit : find_identity db.identities provider sub = some i) :
    resolve_or_create db provider sub claims newUid interference conflict
      = (Except.ok i.user_id, db) := by
  unfold resolve_or_create
  rw [hhit]

/-- C2: identity provisioning is idempotent.  If a first resolve_or_create
call for (provider, sub) returned user id u — under the storage constraint
that the insert conflicts whenever a duplicate identity exists — then every
subsequent call for the same pair returns the same u and leaves the
database unchanged (no additional User or AuthIdentity rows). -/
theorem resolve_or_create_idempotent
    (db : ProvDb) (provider sub : String) (claims : ProfileClaims)
    (newUid : String) (interference : List IdentityRow) (conflict : Bool) (u : String)
    (hhon : conflict = false → find_identity (db.identities ++ interference) provider sub = none)
    (h1 : (resolve_or_create db provider sub claims newUid interference conflict).fst
      = Except.ok u) :
    ∀ claims2 newUid2 interference2 conflict2,
      resolve_or_create
          (resolve_or_create db provider sub claims newUid interference conflict).snd
          provider sub claims2 newUid2 interference2 conflict2
        = (Except.ok u,
          (resolve_or_create db provider sub claims newUid interference conflict).snd) := by
  intro claims2 newUid2 interference2 conflict2
  cases hfirst : find_identity db.identities provider sub with
  | some i =>
    rw [resolve_or_create_hit db provider sub claims newUid interference conflict i hfirst] at h1 ⊢
    have hu : i.user_id = u := Except.ok.inj h1
    rw [resolve_or_create_hit db provider sub claims2 newUid2 interference2 conflict2 i hfirst, hu]
  | none =>
    cases hc : conflict with
    | true =>
      subst hc
      cases h2 : find_identity (db.identities ++ interference) provider sub with
      | some j =>
        have hrun : resolve_or_create db provider sub claims newUid interference true
            = (Except.ok j.user_id,
              { users := db.users ++ [{ id := newUid, nickname := claims.name, avatar_url := claims.picture }],
                identities := db.identities ++ interference }) := by
          unfold resolve_or_create
          rw [hfirst]
          simp [h2]
        rw [hrun] at h1 ⊢
        have hu : j.user_id = u := Except.ok.inj h1
        rw [resolve_or_create_hit _ provider sub claims2 newUid2 interference2 conflict2 j h2, hu]
      | none =>
        have hrun : (resolve_or_create db provider sub claims newUid interference true).fst
            = Except.error 500 := by
          unfold resolve_or_create
          rw [hfirst]
          simp [h2]
        rw [hrun] at h1
        exact absurd h1 (by simp)
    | false =>
      subst hc
      have hnone := hhon rfl
      have hrun : resolve_or_create db provider sub claims newUid interference false
          = (Except.ok newUid,
            { users := db.users ++ [{ id := newUid, nickname := claims.name, avatar_url := claims.picture }],
              identities := (db.identities ++ interference)
                ++ [{ user_id := newUid, provider := provider, provider_uid := sub }] }) := by
        unfold resolve_or_create
        rw [hfirst]
        simp
      rw [hrun] at h1 ⊢
      have hu : newUid = u := Except.ok.inj h1
      have hfind2 : find_identity ((db.identities ++ interference)
          ++ [{ user_id := newUid, provider := provider, provider_uid := sub }]) provider sub
          = some { user_id := newUid, provider := provider, provider_uid := sub } := by
        rw [find_identity_append, hnone]
        simp [find_identity]
      rw [resolve_or_create_hit _ provider sub claims2 newUid2 interference2 conflict2 _ hfind2, hu]

/-- Witness for the C2 idempotency theorem: a first call on the empty
database for provider p and subject s returns the fresh user u1; a second
call (here with a different candidate fresh id u9) returns u1 again and
changes nothing. -/
theorem resolve_or_create_idempotent_witness :
    resolve_or_create
        (resolve_or_create { users := [], identities := [] } "p" "s"
          { name := none, picture := none } "u1" [] false).snd
        "p" "s" { name := none, picture := none } "u9" [] false
      = (Except.ok "u1",
        (resolve_or_create { users := [], identities := [] } "p" "s"
          { name := none, picture := none } "u1" [] false).snd) :=
  resolve_or_create_idempotent { users := [], identities := [] } "p" "s"
    { name := none, picture := none } "u1" [] false "u1" (fun _ => rfl) rfl
    { name := none, picture := none } "u9" [] false

/-! ## JWKS key cache (services/api/security/jwks_client.py) -/

/-- One JWKS entry: the kid plus the (abstract) RSA key material built from
the remaining JWK fields. -/
structure Jwk where
  kid : String
  material : String
deriving DecidableEq

/-- In-memory state of JWKSClient: the kid-indexed key mapping _keys and the
single process-wide expiry timestamp _expires_at. -/
structure JwksState where
  keys : List Jwk
  expires_at : Nat
deriving DecidableEq

/-- Embedding of the dictionary lookup self._keys.get(kid).  A present entry
is never falsy in the source (every stored JWK dict contains at least the
kid field), so Option captures the Python truthiness test exactly. -/
def lookup_key (keys : List Jwk) (kid : String) : Option Jwk :=
  keys.find? (fun k => k.kid == kid)

/-- Result of one get_signing_key call: the returned key (none embeds the
raised KeyError, the KeyNotFound failure of the spec), the cache state after
the call, and how many network fetches the call performed. -/
structure KeyLookupOutcome where
  result : Option Jwk
  state : JwksState
  fetches : Nat
deriving DecidableEq

/-- Embedding of JWKSClient.get_signing_key (jwks_client.py lines 24-33)
together with _refresh (lines 16-22).  The oracle gives the key list parsed
from the n-th successful network fetch of this call (fetch failures are out
of scope here; they raise before mutating the cache).  Each _refresh
replaces the whole mapping and resets the expiry to now + ttl. -/
def get_signing_key (st : JwksState) (ttl now : Nat) (kid : String)
    (oracle : Nat → List Jwk) : KeyLookupOutcome :=
  let st1 := if st.expires_at ≤ now then ({ keys := oracle 0, expires_at := now + ttl } : JwksState) else st
  let n1 := if st.expires_at ≤ now then 1 else 0
  match lookup_key st1.keys kid with
  | some k => { result := some k, state := st1, fetches := n1 }
  | none =>
    let st2 : JwksState := { keys := oracle n1, expires_at := now + ttl }
    { result := lookup_key st2.keys kid, state := st2, fetches := n1 + 1 }

/-- C3: get_signing_key refreshes the whole key map iff the process-wide
expiry has passed (resetting the expiry to now + ttl); if the kid is then
absent from the possibly cached map it performs exactly one more forced
refresh; it returns the key when present and fails (KeyError, the
KeyNotFound of the spec) iff the kid is still absent from the final map
after that single forced refresh; with a fresh cache and a hit, no fetch
happens and the state is untouched. -/
theorem get_signing_key_spec (st : JwksState) (ttl now : Nat) (kid : String)
    (oracle : Nat → List Jwk) :
    (get_signing_key st ttl now kid oracle).fetches
        = (if st.expires_at ≤ now then 1 else 0)
          + (if (lookup_key (if st.expires_at ≤ now then oracle 0 else st.keys) kid).isSome then 0 else 1)
    ∧ (get_signing_key st ttl now kid oracle).result
        = lookup_key (get_signing_key st ttl now kid oracle).state.keys kid
    ∧ ((lookup_key (if st.expires_at ≤ now then oracle 0 else st.keys) kid).isSome →
        (get_signing_key st ttl now kid oracle).result
          = lookup_key (if st.expires_at ≤ now then oracle 0 else st.keys) kid
        ∧ (get_signing_key st ttl now kid oracle).state
          = (if st.expires_at ≤ now then ({ keys := oracle 0, expires_at := now + ttl } : JwksState) else st))
    ∧ (lookup_key (if st.expires_at ≤ now then oracle 0 else st.keys) kid = none →
        (get_signing_key st ttl now kid oracle).state.keys
          = oracle (if st.expires_at ≤ now then 1 else 0)
        ∧ (get_signing_key st ttl now kid oracle).state.expires_at = now + ttl)
    ∧ ((get_signing_key st ttl now kid oracle).result = none ↔
        lookup_key (get_signing_key st ttl now kid oracle).state.keys kid = none)
    ∧ (¬ st.expires_at ≤ now → (lookup_key st.keys kid).isSome →
        (get_signing_key st ttl now kid oracle).state = st
        ∧ (get_signing_key st ttl now kid oracle).fetches = 0) := by
  by_cases hExp : st.expires_at ≤ now
  · cases hk : lookup_key (oracle 0) kid with
    | some k => simp [get_signing_key, hExp, hk]
    | none => simp [get_signing_key, hExp, hk]
  · cases hk : lookup_key st.keys kid with
    | some k => simp [get_signing_key, hExp, hk]
    | none => simp [get_signing_key, hExp, hk]

/-- Witness for the C3 theorem: an expired empty cache, a fetch oracle whose
first fetch publishes the requested kid; the call fetches once, returns the
key, and resets the expiry. -/
theorem get_signing_key_spec_witness :
    (get_signing_key { keys := [], expires_at := 0 } 60 5 "kid-1"
        (fun _ => [{ kid := "kid-1", material := "m1" }])).fetches
        = (if (0 : Nat) ≤ 5 then 1 else 0)
          + (if (lookup_key (if (0 : Nat) ≤ 5 then [{ kid := "kid-1", material := "m1" }] else []) "kid-1").isSome then 0 else 1)
    ∧ (get_signing_key { keys := [], expires_at := 0 } 60 5 "kid-1"
        (fun _ => [{ kid := "kid-1", material := "m1" }])).result
        = lookup_key (get_signing_key { keys := [], expires_at := 0 } 60 5 "kid-1"
            (fun _ => [{ kid := "kid-1", material := "m1" }])).state.keys "kid-1"
    ∧ ((lookup_key (if (0 : Nat) ≤ 5 then [{ kid := "kid-1", material := "m1" }] else []) "kid-1").isSome →
        (get_signing_key { keys := [], expires_at := 0 } 60 5 "kid-1"
            (fun _ => [{ kid := "kid-1", material := "m1" }])).result
          = lookup_key (if (0 : Nat) ≤ 5 then [{ kid := "kid-1", material := "m1" }] else []) "kid-1"
        ∧ (get_signing_key { keys := [], expires_at := 0 } 60 5 "kid-1"
            (fun _ => [{ kid := "kid-1", material := "m1" }])).state
          = (if (0 : Nat) ≤ 5 then ({ keys := [{ kid := "kid-1", material := "m1" }], expires_at := 5 + 60 } : JwksState)
             else { keys := [], expires_at := 0 }))
    ∧ (lookup_key (if (0 : Nat) ≤ 5 then [{ kid := "kid-1", material := "m1" }] else []) "kid-1" = none →
        (get_signing_key { keys := [], expires_at := 0 } 60 5 "kid-1"
            (fun _ => [{ kid := "kid-1", material := "m1" }])).state.keys
          = (fun _ => [{ kid := "kid-1", material := "m1" }]) (if (0 : Nat) ≤ 5 then 1 else 0)
        ∧ (get_signing_key { keys := [], expires_at := 0 } 60 5 "kid-1"
            (fun _ => [{ kid := "kid-1", material := "m1" }])).state.expires_at = 5 + 60)
    ∧ ((get_signing_key { keys := [], expires_at := 0 } 60 5 "kid-1"
          (fun _ => [{ kid := "kid-1", material := "m1" }])).result = none ↔
        lookup_key (get_signing_key { keys := [], expires_at := 0 } 60 5 "kid-1"
            (fun _ => [{ kid := "kid-1", material := "m1" }])).state.keys "kid-1" = none)
    ∧ (¬ (0 : Nat) ≤ 5 → (lookup_key ([] : List Jwk) "kid-1").isSome →
        (get_signing_key { keys := [], expires_at := 0 } 60 5 "kid-1"
            (fun _ => [{ kid := "kid-1", material := "m1" }])).state
          = { keys := [], expires_at := 0 }
        ∧ (get_signing_key { keys := [], expires_at := 0 } 60 5 "kid-1"
            (fun _ => [{ kid := "kid-1", material := "m1" }])).fetches = 0) :=
  get_signing_key_spec { keys := [], expires_at := 0 } 60 5 "kid-1"
    (fun _ => [{ kid := "kid-1", material := "m1" }])

/-! ## Bearer-token verification (services/api/security/jwt_verify.py) and
auth gateway (services/api/middleware/auth.py) -/

/-- Structured content of an externally issued JWT: header fields (alg, kid),
registered claims (iss, sub, aud, exp) and the signature value.  The kid
field is none when the header has no kid (or an empty one, falsy in the
source).  The aud field is none when the token carries no audience claim. -/
structure JwtToken where
  alg : String
  kid : Option String
  iss : String
  sub : String
  aud : Option String
  exp : Nat
  sig : String
deriving DecidableEq

/-- Outcome of asking the key cache for a kid, as seen by the verifier:
the key was found, the cache raised KeyError (kid absent after the forced
refresh), or the underlying network fetch raised an httpx error. -/
inductive KeyLookup where
  | found (k : Jwk)
  | keyMissing
  | fetchFailure
deriving DecidableEq

/-- Verifier configuration: better_auth_issuer and better_auth_audience.
The audience is none when unset or empty (both falsy in the source, where
bool(settings.better_auth_audience) drives verify_aud and the audience
argument is settings.better_auth_audience or None). -/
structure VerifierConfig where
  issuer : String
  audience : Option String
deriving DecidableEq

/-- Embedding of the jwt.decode call of verify_bearer_token, per the
documented PyJWT contract: the token is accepted iff its header algorithm
is the pinned RS256, the signature verifies under the given key (modelled
abstractly: the signature value matches the key material), the issuer
matches exactly, the audience matches whenever verify_aud is set, and the
expiry is in the future.  On acceptance the claims are returned; any
failure raises a PyJWTError, embedded as none. -/
def jwt_decode (tok : JwtToken) (key : Jwk) (issuer : String) (aud : Option String)
    (va : Bool) (now : Nat) : Option JwtToken :=
  if tok.alg = "RS256" ∧ tok.sig = key.material ∧ tok.iss = issuer
      ∧ (va = true → tok.aud = aud) ∧ now < tok.exp then
    some tok
  else none

/-- Outcome of verify_bearer_token: success with claims, the single opaque
TokenVerificationError, or an exception class that its except clause does
not catch (httpx network errors escaping from the JWKS fetch). -/
inductive VerifyOutcome where
  | ok (claims : JwtToken)
  | tokenVerificationError
  | uncaughtFetchError
deriving DecidableEq

/-- Embedding of verify_bearer_token (jwt_verify.py lines 13-33).  The
except clause catches jwt.PyJWTError, KeyError and ValueError and collapses
them into TokenVerificationError; the TokenVerificationError raised for a
missing kid is not in that tuple and propagates as itself; an httpx error
raised by the JWKS fetch is not in that tuple either and escapes the
function unconverted. -/
def verify_bearer_token (cfg : VerifierConfig) (keyFor : String → KeyLookup)
    (now : Nat) (tok : JwtToken) : VerifyOutcome :=
  match tok.kid with
  | none => VerifyOutcome.tokenVerificationError
  | some kid =>
    match keyFor kid with
    | KeyLookup.fetchFailure => VerifyOutcome.uncaughtFetchError
    | KeyLookup.keyMissing => VerifyOutcome.tokenVerificationError
    | KeyLookup.found k =>
      match jwt_decode tok k cfg.issuer cfg.audience cfg.audience.isSome now with
      | some claims => VerifyOutcome.ok claims
      | none => VerifyOutcome.tokenVerificationError

/-- Per-request outcome of AuthMiddleware: the request continues downstream
(with the verified subject attached, or unauthenticated), is rejected with
a JSON response of the given status, or an exception escapes the
middleware. -/
inductive GatewayOutcome where
  | passthrough (sub : Option String)
  | rejected (status : Nat)
  | unhandledError
deriving DecidableEq

/-- Embedding of auth_header.lower().startswith("bearer "). -/
def startsWithBearerCI (s : List Char) : Bool :=
  match s with
  | a :: b :: c :: d :: e :: f :: g :: _ =>
    (a.toLower == 'b') && (b.toLower == 'e') && (c.toLower == 'a') && (d.toLower == 'r')
      && (e.toLower == 'e') && (f.toLower == 'r') && (g == ' ')
  | _ => false

/-- Embedding of auth_header.split(" ", 1)[1]: everything after the first
space (the guard above guarantees a space exists). -/
def split_after_first_space : List Char → List Char
  | [] => []
  | ' ' :: rest => rest
  | _ :: rest => split_after_first_space rest

/-- Embedding of AuthMiddleware.__call__ for http requests (middleware/auth.py
lines 15-47).  The verify argument is the composition of verify_bearer_token
with the raw token substring.  The middleware catches only
TokenVerificationError (returning a 401 JSON response); any other exception
escapes it. -/
def auth_middleware (devBypass : Bool) (devSub : String)
    (verify : List Char → VerifyOutcome) (authHeader : Option (List Char)) : GatewayOutcome :=
  if devBypass then GatewayOutcome.passthrough (some devSub)
  else
    match authHeader with
    | none => GatewayOutcome.passthrough none
    | some h =>
      if startsWithBearerCI h then
        match verify (split_after_first_space h) with
        | VerifyOutcome.ok claims => GatewayOutcome.passthrough (some claims.sub)
        | VerifyOutcome.tokenVerificationError => GatewayOutcome.rejected 401
        | VerifyOutcome.uncaughtFetchError => GatewayOutcome.unhandledError
      else GatewayOutcome.rejected 401

/-- HTTP status observed at the boundary for each gateway outcome: an
explicit rejection carries its own status; an exception that escapes the
middleware is turned into a generic HTTP 500 by the ASGI server; a
passthrough has no status yet (downstream decides). -/
def boundary_status : GatewayOutcome → Option Nat
  | GatewayOutcome.rejected s => some s
  | GatewayOutcome.unhandledError => some 500
  | GatewayOutcome.passthrough _ => none

/-- Configuration for the C4 counterexample. -/
def c4_cfg : VerifierConfig := { issuer := "http://localhost:3000", audience := none }

/-- Token of the C4 counterexample: well-formed, carries a kid, so its
verification requires a key — and the JWKS fetch fails. -/
def c4_token : JwtToken :=
  { alg := "RS256", kid := some "kid-1", iss := "http://localhost:3000", sub := "s",
    aud := none, exp := 100, sig := "m" }

/-- Authorization header of the C4 counterexample. -/
def c4_header : List Char := ['B', 'e', 'a', 'r', 'e', 'r', ' ', 'a', 'b', 'c']

/-- C4 counterexample: a request with a bearer token whose verification
needs a JWKS fetch, and the fetch fails.  The httpx exception is caught
neither by verify_bearer_token nor by AuthMiddleware, so the boundary
answers HTTP 500 — not 401 and not 503 — refuting the claim. -/
theorem c4_fetch_failure_gives_500 :
    boundary_status (auth_middleware false "dev-user"
        (fun _ => verify_bearer_token c4_cfg (fun _ => KeyLookup.fetchFailure) 0 c4_token)
        (some c4_header)) = some 500
    ∧ ¬ (boundary_status (auth_middleware false "dev-user"
          (fun _ => verify_bearer_token c4_cfg (fun _ => KeyLookup.fetchFailure) 0 c4_token)
          (some c4_header)) = some 401
        ∨ boundary_status (auth_middleware false "dev-user"
          (fun _ => verify_bearer_token c4_cfg (fun _ => KeyLookup.fetchFailure) 0 c4_token)
          (some c4_header)) = some 503) := by
  constructor
  · rfl
  · decide

/-- C4 (amended): when verification of a well-formed bearer request needs a
key and the JWKS fetch fails, the failure propagates uncaught through
verify_bearer_token (whose except clause lists only PyJWTError, KeyError
and ValueError) and through AuthMiddleware (which catches only
TokenVerificationError), so the request surfaces as an unhandled error,
HTTP 500 at the boundary — never 401 or 503. -/
theorem fetch_failure_surfaces_as_500
    (cfg : VerifierConfig) (keyFor : String → KeyLookup) (now : Nat)
    (parse : List Char → JwtToken) (devSub : String) (h : List Char) (kid : String)
    (hb : startsWithBearerCI h = true)
    (hkid : (parse (split_after_first_space h)).kid = some kid)
    (hfetch : keyFor kid = KeyLookup.fetchFailure) :
    boundary_status (auth_middleware false devSub
        (fun s => verify_bearer_token cfg keyFor now (parse s)) (some h)) = some 500
    ∧ boundary_status (auth_middleware false devSub
        (fun s => verify_bearer_token cfg keyFor now (parse s)) (some h)) ≠ some 401
    ∧ boundary_status (auth_middleware false devSub
        (fun s => verify_bearer_token cfg keyFor now (parse s)) (some h)) ≠ some 503 := by
  have hv : verify_bearer_token cfg keyFor now (parse (split_after_first_space h))
      = VerifyOutcome.uncaughtFetchError := by
    simp [verify_bearer_token, hkid, hfetch]
  simp [auth_middleware, boundary_status, hb, hv]

/-- Witness for the amended C4 theorem at the concrete counterexample
input. -/
theorem fetch_failure_surfaces_as_500_witness :
    boundary_status (auth_middleware false "dev-user"
        (fun s => verify_bearer_token c4_cfg (fun _ => KeyLookup.fetchFailure) 0
          ((fun _ => c4_token) s)) (some c4_header)) = some 500
    ∧ boundary_status (auth_middleware false "dev-user"
        (fun s => verify_bearer_token c4_cfg (fun _ => KeyLookup.fetchFailure) 0
          ((fun _ => c4_token) s)) (some c4_header)) ≠ some 401
    ∧ boundary_status (auth_middleware false "dev-user"
        (fun s => verify_bearer_token c4_cfg (fun _ => KeyLookup.fetchFailure) 0
          ((fun _ => c4_token) s)) (some c4_header)) ≠ some 503 :=
  fetch_failure_surfaces_as_500 c4_cfg (fun _ => KeyLookup.fetchFailure) 0
    (fun _ => c4_token) "dev-user" c4_header "kid-1" rfl rfl rfl

/-- C5: with no fetch failure in play, verify_bearer_token succeeds and
returns the claims of the token itself (subject included) iff the header
carries a kid the key lookup resolves, the signature verifies under RS256
with that key, the issuer matches exactly, the audience matches whenever
one is configured (skipped otherwise), and the token is unexpired; every
other case collapses to the single opaque TokenVerificationError. -/
theorem verify_bearer_token_spec
    (cfg : VerifierConfig) (keyFor : String → KeyLookup) (now : Nat) (tok : JwtToken)
    (hnf : ∀ kid, keyFor kid ≠ KeyLookup.fetchFailure) :
    (verify_bearer_token cfg keyFor now tok = VerifyOutcome.ok tok ↔
      ∃ kid k, tok.kid = some kid ∧ keyFor kid = KeyLookup.found k
        ∧ tok.alg = "RS256" ∧ tok.sig = k.material ∧ tok.iss = cfg.issuer
        ∧ (cfg.audience.isSome = true → tok.aud = cfg.audience) ∧ now < tok.exp)
    ∧ (∀ c, verify_bearer_token cfg keyFor now tok = VerifyOutcome.ok c → c = tok)
    ∧ (verify_bearer_token cfg keyFor now tok = VerifyOutcome.ok tok
        ∨ verify_bearer_token cfg keyFor now tok = VerifyOutcome.tokenVerificationError) := by
  have hdec : ∀ (k : Jwk) (c : JwtToken),
      jwt_decode tok k cfg.issuer cfg.audience cfg.audience.isSome now = some c → c = tok := by
    intro k c hsome
    unfold jwt_decode at hsome
    split at hsome
    · exact (Option.some.inj hsome).symm
    · exact absurd hsome (by simp)
  refine ⟨⟨?_, ?_⟩, ?_, ?_⟩
  · intro hok
    cases hkid : tok.kid with
    | none => simp [verify_bearer_token, hkid] at hok
    | some kid =>
      cases hk : keyFor kid with
      | fetchFailure => exact absurd hk (hnf kid)
      | keyMissing => simp [verify_bearer_token, hkid, hk] at hok
      | found k =>
        cases hd : jwt_decode tok k cfg.issuer cfg.audience cfg.audience.isSome now with
        | none => simp [verify_bearer_token, hkid, hk, hd] at hok
        | some c =>
          have hc := hdec k c hd
          subst hc
          unfold jwt_decode at hd
          split at hd
          case isTrue hcond =>
            exact ⟨kid, k, rfl, hk, hcond.1, hcond.2.1, hcond.2.2.1, hcond.2.2.2.1, hcond.2.2.2.2⟩
          case isFalse => exact absurd hd (by simp)
  · rintro ⟨kid, k, hkid, hk, halg, hsig, hiss, haud, hexp⟩
    have hd : jwt_decode tok k cfg.issuer cfg.audience cfg.audience.isSome now = some tok := by
      unfold jwt_decode
      exact if_pos ⟨halg, hsig, hiss, haud, hexp⟩
    simp [verify_bearer_token, hkid, hk, hd]
  · intro c hok
    cases hkid : tok.kid with
    | none => simp [verify_bearer_token, hkid] at hok
    | some kid =>
      cases hk : keyFor kid with
      | fetchFailure => exact absurd hk (hnf kid)
      | keyMissing => simp [verify_bearer_token, hkid, hk] at hok
      | found k =>
        cases hd : jwt_decode tok k cfg.issuer cfg.audience cfg.audience.isSome now with
        | none => simp [verify_bearer_token, hkid, hk, hd] at hok
        | some c2 =>
          have h2 := hdec k c2 hd
          simp [verify_bearer_token, hkid, hk, hd] at hok
          subst hok
          exact h2
  · cases hkid : tok.kid with
    | none => right; simp [verify_bearer_token, hkid]
    | some kid =>
      cases hk : keyFor kid with
      | fetchFailure => exact absurd hk (hnf kid)
      | keyMissing => right; simp [verify_bearer_token, hkid, hk]
      | found k =>
        cases hd : jwt_decode tok k cfg.issuer cfg.audience cfg.audience.isSome now with
        | none => right; simp [verify_bearer_token, hkid, hk, hd]
        | some c =>
          left
          have hc := hdec k c hd
          subst hc
          simp [verify_bearer_token, hkid, hk, hd]

/-- Key lookup table for the C5 witness. -/
def c5_keyFor : String → KeyLookup :=
  fun kid => if kid = "k1" then KeyLookup.found { kid := "k1", material := "m" }
             else KeyLookup.keyMissing

/-- Configuration for the C5 witness: issuer set, no audience configured. -/
def c5_cfg : VerifierConfig := { issuer := "https://issuer", audience := none }

/-- Token for the C5 witness: signed with the key of kid k1, right issuer,
unexpired. -/
def c5_token : JwtToken :=
  { alg := "RS256", kid := some "k1", iss := "https://issuer", sub := "user-1",
    aud := none, exp := 100, sig := "m" }

/-- Witness for the C5 theorem: with a concrete key table that never raises
a fetch failure, the round-trip token verifies and the failure cases
collapse as stated. -/
theorem verify_bearer_token_spec_witness :
    (verify_bearer_token c5_cfg c5_keyFor 0 c5_token = VerifyOutcome.ok c5_token ↔
      ∃ kid k, c5_token.kid = some kid ∧ c5_keyFor kid = KeyLookup.found k
        ∧ c5_token.alg = "RS256" ∧ c5_token.sig = k.material ∧ c5_token.iss = c5_cfg.issuer
        ∧ (c5_cfg.audience.isSome = true → c5_token.aud = c5_cfg.audience) ∧ 0 < c5_token.exp)
    ∧ (∀ c, verify_bearer_token c5_cfg c5_keyFor 0 c5_token = VerifyOutcome.ok c → c = c5_token)
    ∧ (verify_bearer_token c5_cfg c5_keyFor 0 c5_token = VerifyOutcome.ok c5_token
        ∨ verify_bearer_token c5_cfg c5_keyFor 0 c5_token = VerifyOutcome.tokenVerificationError) :=
  verify_bearer_token_spec c5_cfg c5_keyFor 0 c5_token
    (by
      intro kid
      unfold c5_keyFor
      split
      · exact fun hcontra => KeyLookup.noConfusion hcontra
      · exact fun hcontra => KeyLookup.noConfusion hcontra)

/-! ## Refresh-token lifecycle (shared/auth.py) -/

/-- Row of the refresh_tokens table (shared/models.py, class RefreshToken). -/
structure RefreshRow where
  user_id : String
  token_hash : String
  expires_at : Nat
  revoked_at : Option Nat
deriving DecidableEq

/-- Filter of the rotation query: token_hash matches and revoked_at IS NULL. -/
def active_pred (th : String) (r : RefreshRow) : Bool :=
  r.token_hash == th && r.revoked_at == none

/-- Embedding of query.filter(token_hash == th, revoked_at.is_(None)).first(). -/
def find_active (db : List RefreshRow) (th : String) : Option RefreshRow :=
  db.find? (active_pred th)

/-- Setting revoked_at on the row the rotation query found: the first row
matching (token_hash = th, revoked_at IS NULL). -/
def mark_revoked_first : List RefreshRow → String → Nat → List RefreshRow
  | [], _, _ => []
  | r :: rs, th, now =>
    if active_pred th r then { r with revoked_at := some now } :: rs
    else r :: mark_revoked_first rs th now

/-- Embedding of rotate_refresh_token (shared/auth.py lines 44-59): look up
the first un-revoked row with the hash of the raw token; if none, or the
found row is expired, fail without touching the store; otherwise set
revoked_at on that row and append the fresh token row created by
create_refresh_token (newRaw models the secrets.token_urlsafe output,
hashFn the SHA-256 hex digest, ttl the refresh_token_expire_seconds). -/
def rotate_refresh_token (hashFn : String → String) (db : List RefreshRow)
    (raw : String) (now : Nat) (newRaw : String) (ttl : Nat) :
    Option (String × String) × List RefreshRow :=
  match find_active db (hashFn raw) with
  | none => (none, db)
  | some r =>
    if r.expires_at < now then (none, db)
    else
      (some (newRaw, r.user_id),
        mark_revoked_first db (hashFn raw) now
          ++ [{ user_id := r.user_id, token_hash := hashFn newRaw,
                expires_at := now + ttl, revoked_at := none }])

/-- Splitting the rotation lookup across an append of row lists. -/
theorem find_active_append (l1 l2 : List RefreshRow) (th : String) :
    find_active (l1 ++ l2) th =
      match find_active l1 th with
      | some r => some r
      | none => find_active l2 th := by
  induction l1 with
  | nil => simp [find_active]
  | cons a t ih =>
    simp only [find_active, List.cons_append, List.find?]
    cases active_pred th a with
    | true => rfl
    | false => exact ih

/-- After revoking the only active row with a hash, no active row with that
hash remains. -/
theorem find_active_mark_revoked (db : List RefreshRow) (th : String) (now : Nat)
    (hcount : db.countP (active_pred th) ≤ 1) :
    find_active (mark_revoked_first db th now) th = none := by
  induction db with
  | nil => rfl
  | cons r rs ih =>
    by_cases hp : active_pred th r
    · have hz : rs.countP (active_pred th) = 0 := by
        rw [List.countP_cons, if_pos hp] at hcount
        omega
      have hnone : find_active rs th = none := by
        rw [find_active, List.find?_eq_none]
        intro x hx
        have := (List.countP_eq_zero).mp hz
        exact fun hpx => this x hx hpx
      simp only [mark_revoked_first, if_pos hp]
      rw [find_active, List.find?]
      have hfalse : active_pred th { r with revoked_at := some now } = false := by
        simp [active_pred]
      rw [hfalse]
      exact hnone
    · rw [List.countP_cons, if_neg hp] at hcount
      simp only [mark_revoked_first, if_neg hp]
      rw [find_active, List.find?]
      have hfalse : active_pred th r = false := by
        exact Bool.not_eq_true _ ▸ (by simpa using hp)
      rw [hfalse]
      exact ih (by omega)

/-- The revoked copy of the row the rotation found is in the updated list. -/
theorem mark_revoked_mem (db : List RefreshRow) (th : String) (now : Nat) (r : RefreshRow)
    (hfind : find_active db th = some r) :
    { r with revoked_at := some now } ∈ mark_revoked_first db th now := by
  induction db with
  | nil => simp [find_active] at hfind
  | cons a rs ih =>
    by_cases hp : active_pred th a
    · have ha : a = r := by
        rw [find_active, List.find?, hp] at hfind
        exact Option.some.inj hfind
      subst ha
      simp [mark_revoked_first, hp]
    · have hfalse : active_pred th a = false := by simpa using hp
      rw [find_active, List.find?, hfalse] at hfind
      simp only [mark_revoked_first, if_neg hp]
      exact List.mem_cons_of_mem a (ih hfind)

/-- C6: refresh rotation is one-use.  For an un-revoked, unexpired stored
token (unique for its hash, as the high-entropy generator guarantees) and a
fresh replacement raw token, rotation succeeds, returns a raw token
differing from the input for the same user, and stores the revoked copy;
rotating the original raw token again afterwards fails, and rotation of any
raw token that is unknown (or already revoked) or expired fails. -/
theorem rotate_refresh_token_one_use
    (hashFn : String → String) (db : List RefreshRow) (raw newRaw : String)
    (now ttl : Nat) (r0 : RefreshRow)
    (hfind : find_active db (hashFn raw) = some r0)
    (hunexp : ¬ r0.expires_at < now)
    (hcount : db.countP (active_pred (hashFn raw)) ≤ 1)
    (hfresh : hashFn newRaw ≠ hashFn raw) :
    (rotate_refresh_token hashFn db raw now newRaw ttl).fst = some (newRaw, r0.user_id)
    ∧ newRaw ≠ raw
    ∧ { r0 with revoked_at := some now } ∈ (rotate_refresh_token hashFn db raw now newRaw ttl).snd
    ∧ (∀ now2 newRaw2,
        (rotate_refresh_token hashFn (rotate_refresh_token hashFn db raw now newRaw ttl).snd
          raw now2 newRaw2 ttl).fst = none)
    ∧ (∀ (db2 : List RefreshRow) (raw2 : String), find_active db2 (hashFn raw2) = none →
        (rotate_refresh_token hashFn db2 raw2 now newRaw ttl).fst = none)
    ∧ (∀ (db2 : List RefreshRow) (raw2 : String) (r2 : RefreshRow),
        find_active db2 (hashFn raw2) = some r2 → r2.expires_at < now →
        (rotate_refresh_token hashFn db2 raw2 now newRaw ttl).fst = none) := by
  have hrun : rotate_refresh_token hashFn db raw now newRaw ttl
      = (some (newRaw, r0.user_id),
        mark_revoked_first db (hashFn raw) now
          ++ [{ user_id := r0.user_id, token_hash := hashFn newRaw,
                expires_at := now + ttl, revoked_at := none }]) := by
    simp [rotate_refresh_token, hfind, hunexp]
  refine ⟨by rw [hrun], ?_, ?_, ?_, ?_, ?_⟩
  · intro heq
    exact hfresh (by rw [heq])
  · rw [hrun]
    exact List.mem_append_left _ (mark_revoked_mem db (hashFn raw) now r0 hfind)
  · intro now2 newRaw2
    rw [hrun]
    have hnone : find_active
        (mark_revoked_first db (hashFn raw) now
          ++ [{ user_id := r0.user_id, token_hash := hashFn newRaw,
                expires_at := now + ttl, revoked_at := none }]) (hashFn raw) = none := by
      rw [find_active_append, find_active_mark_revoked db (hashFn raw) now hcount]
      simp [find_active, active_pred, hfresh]
    unfold rotate_refresh_token
    rw [hnone]
  · intro db2 raw2 hnone2
    unfold rotate_refresh_token
    rw [hnone2]
  · intro db2 raw2 r2 hfind2 hexp2
    simp [rotate_refresh_token, hfind2, hexp2]

/-- Database of the C6 witness: one active refresh row for hash a. -/
def c6_db : List RefreshRow :=
  [{ user_id := "u", token_hash := "a", expires_at := 10, revoked_at := none }]

/-- Witness for the C6 theorem: the single active row for hash a, unexpired
at time 5, rotated to the fresh raw token b (the identity stands in for the
hash function; the stored hash of a is a itself). -/
theorem rotate_refresh_token_one_use_witness :
    (rotate_refresh_token (fun s => s) c6_db "a" 5 "b" 100).fst = some ("b", "u")
    ∧ "b" ≠ "a"
    ∧ ({ user_id := "u", token_hash := "a", expires_at := 10, revoked_at := some 5 } : RefreshRow)
        ∈ (rotate_refresh_token (fun s => s) c6_db "a" 5 "b" 100).snd
    ∧ (∀ now2 newRaw2,
        (rotate_refresh_token (fun s => s) (rotate_refresh_token (fun s => s) c6_db "a" 5 "b" 100).snd
          "a" now2 newRaw2 100).fst = none)
    ∧ (∀ (db2 : List RefreshRow) (raw2 : String), find_active db2 ((fun s => s) raw2) = none →
        (rotate_refresh_token (fun s => s) db2 raw2 5 "b" 100).fst = none)
    ∧ (∀ (db2 : List RefreshRow) (raw2 : String) (r2 : RefreshRow),
        find_active db2 ((fun s => s) raw2) = some r2 → r2.expires_at < 5 →
        (rotate_refresh_token (fun s => s) db2 raw2 5 "b" 100).fst = none) :=
  rotate_refresh_token_one_use (fun s => s) c6_db "a" "b" 5 100
    { user_id := "u", token_hash := "a", expires_at := 10, revoked_at := none }
    rfl (by decide) (by decide) (by decide)

/-- Setting revoked_at on the row the revocation query found: the first row
whose token_hash matches (revoked or not — the query of
revoke_refresh_token does not filter on revoked_at). -/
def set_revoked_first_hash : List RefreshRow → String → Nat → List RefreshRow
  | [], _, _ => []
  | r :: rs, th, now =>
    if r.token_hash == th then { r with revoked_at := some now } :: rs
    else r :: set_revoked_first_hash rs th now

/-- Embedding of revoke_refresh_token (shared/auth.py lines 62-70): look up
the first row with the hash of the raw token; return false untouched when
none exists or it is already revoked; otherwise set revoked_at and return
true. -/
def revoke_refresh_token (hashFn : String → String) (db : List RefreshRow)
    (raw : String) (now : Nat) : Bool × List RefreshRow :=
  match db.find? (fun r => r.token_hash == hashFn raw) with
  | none => (false, db)
  | some r =>
    match r.revoked_at with
    | some _ => (false, db)
    | none => (true, set_revoked_first_hash db (hashFn raw) now)

/-- Embedding of the logout endpoint (services/api/main.py lines 220-223):
it calls revoke_refresh_token, discards the returned boolean, and responds
with the literal payload revoked = True. -/
def logout (hashFn : String → String) (db : List RefreshRow) (raw : String)
    (now : Nat) : Bool × List RefreshRow :=
  (true, (revoke_refresh_token hashFn db raw now).snd)

/-- C7 counterexample: for a raw token unknown to the store,
revoke_refresh_token returns false, yet POST /auth/logout responds with
revoked = true — the response field is not the result of revoke, refuting
the claim. -/
theorem c7_logout_not_revoke_result :
    (revoke_refresh_token (fun s => s) [] "x" 0).fst = false
    ∧ (logout (fun s => s) [] "x" 0).fst = true
    ∧ (logout (fun s => s) [] "x" 0).fst ≠ (revoke_refresh_token (fun s => s) [] "x" 0).fst :=
  ⟨rfl, rfl, by decide⟩

/-- After revoking the first row with a hash, the first row with that hash
is the revoked copy. -/
theorem find_hash_set_revoked (db : List RefreshRow) (th : String) (now : Nat)
    (r : RefreshRow)
    (hfind : db.find? (fun x => x.token_hash == th) = some r) :
    (set_revoked_first_hash db th now).find? (fun x => x.token_hash == th)
      = some { r with revoked_at := some now } := by
  induction db with
  | nil => simp at hfind
  | cons a rs ih =>
    by_cases hp : a.token_hash == th
    · have ha : a = r := by
        rw [List.find?, hp] at hfind
        exact Option.some.inj hfind
      subst ha
      simp only [set_revoked_first_hash, if_pos hp]
      rw [List.find?]
      simp only [hp]
    · have hfalse : (a.token_hash == th) = false := by simpa using hp
      rw [List.find?, hfalse] at hfind
      simp only [set_revoked_first_hash, if_neg hp]
      rw [List.find?, hfalse]
      exact ih hfind

/-- C7 (amended): revoke_refresh_token returns true iff a row with the hash
of the raw token exists and is currently un-revoked (and it marks that row
revoked); it returns false without error — and without touching the store —
for an unknown or already-revoked token, and a repeated revoke of the same
raw token returns false; but POST /auth/logout discards that boolean and
always responds with revoked = true. -/
theorem revoke_refresh_token_spec
    (hashFn : String → String) (db : List RefreshRow) (raw : String) (now : Nat) :
    ((revoke_refresh_token hashFn db raw now).fst = true ↔
      ∃ r, db.find? (fun x => x.token_hash == hashFn raw) = some r ∧ r.revoked_at = none)
    ∧ ((revoke_refresh_token hashFn db raw now).fst = false →
        (revoke_refresh_token hashFn db raw now).snd = db)
    ∧ ((revoke_refresh_token hashFn db raw now).fst = true →
        ∀ now2, (revoke_refresh_token hashFn
          (revoke_refresh_token hashFn db raw now).snd raw now2).fst = false)
    ∧ (logout hashFn db raw now).fst = true
    ∧ (logout hashFn db raw now).snd = (revoke_refresh_token hashFn db raw now).snd := by
  refine ⟨?_, ?_, ?_, rfl, rfl⟩
  · cases hf : db.find? (fun x => x.token_hash == hashFn raw) with
    | none =>
      simp [revoke_refresh_token, hf]
    | some r =>
      cases hr : r.revoked_at with
      | some t => simp [revoke_refresh_token, hf, hr]
      | none =>
        simp only [revoke_refresh_token, hf, hr]
        constructor
        · intro _
          exact ⟨r, rfl, hr⟩
        · intro _
          trivial
  · intro hfalse
    cases hf : db.find? (fun x => x.token_hash == hashFn raw) with
    | none => simp [revoke_refresh_token, hf]
    | some r =>
      cases hr : r.revoked_at with
      | some t => simp [revoke_refresh_token, hf, hr]
      | none =>
        rw [revoke_refresh_token, hf] at hfalse
        simp [hr] at hfalse
  · intro htrue now2
    cases hf : db.find? (fun x => x.token_hash == hashFn raw) with
    | none =>
      rw [revoke_refresh_token, hf] at htrue
      simp at htrue
    | some r =>
      cases hr : r.revoked_at with
      | some t =>
        rw [revoke_refresh_token, hf] at htrue
        simp [hr] at htrue
      | none =>
        have hsnd : (revoke_refresh_token hashFn db raw now).snd
            = set_revoked_first_hash db (hashFn raw) now := by
          simp [revoke_refresh_token, hf, hr]
        rw [hsnd]
        have hfind2 := find_hash_set_revoked db (hashFn raw) now r hf
        simp [revoke_refresh_token, hfind2]

/-- Witness for the amended C7 theorem: a store holding one active row for
hash a, revoked at time 3. -/
theorem revoke_refresh_token_spec_witness :
    ((revoke_refresh_token (fun s => s) c6_db "a" 3).fst = true ↔
      ∃ r, c6_db.find? (fun x => x.token_hash == (fun s : String => s) "a") = some r
        ∧ r.revoked_at = none)
    ∧ ((revoke_refresh_token (fun s => s) c6_db "a" 3).fst = false →
        (revoke_refresh_token (fun s => s) c6_db "a" 3).snd = c6_db)
    ∧ ((revoke_refresh_token (fun s => s) c6_db "a" 3).fst = true →
        ∀ now2, (revoke_refresh_token (fun s => s)
          (revoke_refresh_token (fun s => s) c6_db "a" 3).snd "a" now2).fst = false)
    ∧ (logout (fun s => s) c6_db "a" 3).fst = true
    ∧ (logout (fun s => s) c6_db "a" 3).snd = (revoke_refresh_token (fun s => s) c6_db "a" 3).snd :=
  revoke_refresh_token_spec (fun s => s) c6_db "a" 3

/-! ## SMS OTP service (services/api/main.py, sms_send and _verify_sms_code) -/

/-- Row of the sms_otps table (shared/models.py, class SmsOtp). -/
structure SmsOtpRow where
  id : Nat
  phone : String
  code_hash : String
  expires_at : Nat
  consumed_at : Option Nat
  created_at : Nat
deriving DecidableEq

/-- Redis attempt counters keyed by OTP id; an absent key reads as 0
(int(redis_client.get(attempt_key) or 0)). -/
def get_attempts (a : List (Nat × Nat)) (i : Nat) : Nat :=
  match a.find? (fun p => p.fst == i) with
  | some p => p.snd
  | none => 0

/-- Embedding of redis_client.incr(attempt_key). -/
def incr_attempt (a : List (Nat × Nat)) (i : Nat) : List (Nat × Nat) :=
  (i, get_attempts a i + 1) :: a.filter (fun p => p.fst != i)

/-- Embedding of redis_client.delete(attempt_key). -/
def remove_attempt (a : List (Nat × Nat)) (i : Nat) : List (Nat × Nat) :=
  a.filter (fun p => p.fst != i)

/-- Embedding of query.filter(phone == p, consumed_at.is_(None))
.order_by(created_at.desc()).first(): the unconsumed row for the phone with
the greatest created_at (the first such row in list order on ties). -/
def latest_unconsumed (otps : List SmsOtpRow) (phone : String) : Option SmsOtpRow :=
  (otps.filter (fun o => o.phone == phone && o.consumed_at == none)).foldl
    (fun acc o =>
      match acc with
      | none => some o
      | some b => if b.created_at < o.created_at then some o else some b) none

/-- Setting consumed_at on the row with the given primary key. -/
def consume_otp (otps : List SmsOtpRow) (i : Nat) (now : Nat) : List SmsOtpRow :=
  otps.map (fun o => if o.id == i then { o with consumed_at := some now } else o)

/-- State touched by OTP verification: the sms_otps table and the redis
attempt counters. -/
structure SmsState where
  otps : List SmsOtpRow
  attempts : List (Nat × Nat)
deriving DecidableEq

/-- Embedding of _verify_sms_code (services/api/main.py lines 146-171):
select the most recently created unconsumed OTP of the phone; fail when
none exists, it is expired, or it has accumulated 5 failed attempts; on a
hash mismatch increment the attempt counter and fail; on a match set
consumed_at and delete the attempt counter. -/
def verify_sms_code (hashFn : String → String) (s : SmsState) (phone code : String)
    (now : Nat) : Option SmsOtpRow × SmsState :=
  match latest_unconsumed s.otps phone with
  | none => (none, s)
  | some otp =>
    if otp.expires_at < now then (none, s)
    else if 5 ≤ get_attempts s.attempts otp.id then (none, s)
    else if otp.code_hash ≠ hashFn code then
      (none, { s with attempts := incr_attempt s.attempts otp.id })
    else
      (some otp,
        { otps := consume_otp s.otps otp.id now,
          attempts := remove_attempt s.attempts otp.id })

/-- The element the fold of latest_unconsumed picks comes from the
accumulator or the list. -/
theorem foldl_pick_mem (l : List SmsOtpRow) (acc : Option SmsOtpRow) (o : SmsOtpRow)
    (h : l.foldl (fun acc o =>
      match acc with
      | none => some o
      | some b => if b.created_at < o.created_at then some o else some b) acc = some o) :
    acc = some o ∨ o ∈ l := by
  induction l generalizing acc with
  | nil => exact Or.inl h
  | cons a t ih =>
    rw [List.foldl] at h
    rcases ih _ h with hacc | hmem
    · cases acc with
      | none =>
        right
        have : a = o := Option.some.inj hacc
        exact this ▸ List.mem_cons_self a t
      | some b =>
        rcases ite_eq_iff.mp hacc with ⟨_, hthen⟩ | ⟨_, helse⟩
        · right
          have : a = o := Option.some.inj hthen
          exact this ▸ List.mem_cons_self a t
        · exact Or.inl helse
    · exact Or.inr (List.mem_cons_of_mem a hmem)

/-- The row latest_unconsumed returns belongs to the table, is for the
requested phone, and is unconsumed. -/
theorem latest_unconsumed_mem (otps : List SmsOtpRow) (phone : String) (o : SmsOtpRow)
    (h : latest_unconsumed otps phone = some o) :
    o ∈ otps ∧ o.phone = phone ∧ o.consumed_at = none := by
  unfold latest_unconsumed at h
  rcases foldl_pick_mem _ none o h with hacc | hmem
  · exact absurd hacc (by simp)
  · have hsplit := List.mem_filter.mp hmem
    have hpred := hsplit.2
    simp only [Bool.and_eq_true, beq_iff_eq] at hpred
    exact ⟨hsplit.1, hpred.1, hpred.2⟩

/-- Reading a deleted attempt counter yields 0. -/
theorem get_attempts_remove (a : List (Nat × Nat)) (i : Nat) :
    get_attempts (remove_attempt a i) i = 0 := by
  unfold get_attempts remove_attempt
  have : (a.filter (fun p => p.fst != i)).find? (fun p => p.fst == i) = none := by
    rw [List.find?_eq_none]
    intro x hx
    have := (List.mem_filter.mp hx).2
    simp only [bne_iff_ne, ne_eq] at this
    simp [this]
  rw [this]

/-- Verification fails whenever no unconsumed OTP of the phone stores the
hash of the submitted code. -/
theorem verify_sms_code_none (hashFn : String → String) (s : SmsState) (phone code : String)
    (now : Nat)
    (hall : ∀ o ∈ s.otps, o.phone = phone → o.consumed_at = none → o.code_hash ≠ hashFn code) :
    (verify_sms_code hashFn s phone code now).fst = none := by
  cases hl : latest_unconsumed s.otps phone with
  | none => simp [verify_sms_code, hl]
  | some o2 =>
    obtain ⟨hmem2, hph2, hcons2⟩ := latest_unconsumed_mem s.otps phone o2 hl
    have hneq := hall o2 hmem2 hph2 hcons2
    by_cases he2 : o2.expires_at < now
    · simp [verify_sms_code, hl, he2]
    · by_cases ha2 : 5 ≤ get_attempts s.attempts o2.id
      · simp [verify_sms_code, hl, he2, ha2]
      · simp [verify_sms_code, hl, he2, ha2, hneq]

/-- C8: OTP codes are one-shot.  If a verify succeeds, it consumed the most
recently created unconsumed OTP of the phone (whose stored hash is the hash
of the submitted code), set consumed_at on it and cleared its attempt
counter; and provided the hash of that code does not appear on any other
unconsumed OTP of the phone (codes are independently random), every
subsequent verify of the same phone and code fails, at every later time —
even before the expiry of the code. -/
theorem verify_sms_code_one_shot
    (hashFn : String → String) (s : SmsState) (phone code : String) (now : Nat)
    (otp : SmsOtpRow)
    (h1 : (verify_sms_code hashFn s phone code now).fst = some otp)
    (hother : ∀ o ∈ (verify_sms_code hashFn s phone code now).snd.otps,
        o.phone = phone → o.consumed_at = none → o.code_hash ≠ hashFn code) :
    latest_unconsumed s.otps phone = some otp
    ∧ otp.code_hash = hashFn code
    ∧ { otp with consumed_at := some now } ∈ (verify_sms_code hashFn s phone code now).snd.otps
    ∧ get_attempts (verify_sms_code hashFn s phone code now).snd.attempts otp.id = 0
    ∧ (∀ now2,
        (verify_sms_code hashFn (verify_sms_code hashFn s phone code now).snd
          phone code now2).fst = none) := by
  cases hl : latest_unconsumed s.otps phone with
  | none =>
    simp [verify_sms_code, hl] at h1
  | some o =>
    by_cases he : o.expires_at < now
    · simp [verify_sms_code, hl, he] at h1
    · by_cases ha : 5 ≤ get_attempts s.attempts o.id
      · simp [verify_sms_code, hl, he, ha] at h1
      · by_cases hh : o.code_hash ≠ hashFn code
        · simp [verify_sms_code, hl, he, ha, hh] at h1
        · have hhash : o.code_hash = hashFn code := not_ne_iff.mp hh
          have hrun : verify_sms_code hashFn s phone code now
              = (some o,
                { otps := consume_otp s.otps o.id now,
                  attempts := remove_attempt s.attempts o.id }) := by
            simp [verify_sms_code, hl, he, ha, hhash]
          have ho : o = otp := by
            rw [hrun] at h1
            exact Option.some.inj h1
          subst ho
          obtain ⟨hmem, _, _⟩ := latest_unconsumed_mem s.otps phone o hl
          refine ⟨rfl, hhash, ?_, ?_, ?_⟩
          · rw [hrun]
            have : (fun x => if x.id == o.id then { x with consumed_at := some now } else x) o
                = { o with consumed_at := some now } := by simp
            exact this ▸ List.mem_map_of_mem _ hmem
          · rw [hrun]
            exact get_attempts_remove s.attempts o.id
          · intro now2
            exact verify_sms_code_none hashFn
              (verify_sms_code hashFn s phone code now).snd phone code now2 hother

/-- Table for the C8 witness: one fresh unconsumed OTP for the test phone,
storing the hash of code 123456 (the identity stands in for SHA-256). -/
def c8_state : SmsState :=
  { otps := [{ id := 1, phone := "+15551234567", code_hash := "123456",
               expires_at := 300, consumed_at := none, created_at := 0 }],
    attempts := [] }

/-- Witness for the C8 theorem: verifying the correct code at time 10
succeeds and consumes the OTP; afterwards the same code never verifies
again. -/
theorem verify_sms_code_one_shot_witness :
    latest_unconsumed c8_state.otps "+15551234567"
      = some { id := 1, phone := "+15551234567", code_hash := "123456",
               expires_at := 300, consumed_at := none, created_at := 0 }
    ∧ ({ id := 1, phone := "+15551234567", code_hash := "123456",
         expires_at := 300, consumed_at := none, created_at := 0 } : SmsOtpRow).code_hash
      = (fun s : String => s) "123456"
    ∧ ({ id := 1, phone := "+15551234567", code_hash := "123456",
         expires_at := 300, consumed_at := some 10, created_at := 0 } : SmsOtpRow)
      ∈ (verify_sms_code (fun s => s) c8_state "+15551234567" "123456" 10).snd.otps
    ∧ get_attempts (verify_sms_code (fun s => s) c8_state "+15551234567" "123456" 10).snd.attempts 1 = 0
    ∧ (∀ now2,
        (verify_sms_code (fun s => s) (verify_sms_code (fun s => s) c8_state "+15551234567" "123456" 10).snd
          "+15551234567" "123456" now2).fst = none) :=
  verify_sms_code_one_shot (fun s => s) c8_state "+15551234567" "123456" 10
    { id := 1, phone := "+15551234567", code_hash := "123456",
      expires_at := 300, consumed_at := none, created_at := 0 }
    rfl (by decide)

/-- SMS-related settings of shared/config.py with their defaults. -/
structure SmsSettings where
  sms_ip_rate_limit_per_hour : Nat
  sms_phone_rate_limit_seconds : Nat
  sms_code_expire_seconds : Nat
deriving DecidableEq

/-- Default values of the Settings class (shared/config.py lines 13-15). -/
def default_sms_settings : SmsSettings :=
  { sms_ip_rate_limit_per_hour := 20
    sms_phone_rate_limit_seconds := 60
    sms_code_expire_seconds := 300 }

/-- State touched by sms_send: the set of phones whose redis cooldown key
is live, the per-(ip, UTC hour) redis counters, and the sms_otps table. -/
structure SmsSendState where
  phone_cooldown : List String
  ip_counters : List ((String × Nat) × Nat)
  otps : List SmsOtpRow
deriving DecidableEq

/-- Reading a per-(ip, hour) counter; an absent key reads as 0. -/
def get_ip_count (c : List ((String × Nat) × Nat)) (ip : String) (hour : Nat) : Nat :=
  match c.find? (fun p => p.fst == (ip, hour)) with
  | some p => p.snd
  | none => 0

/-- Writing a per-(ip, hour) counter (redis INCR stores the new value). -/
def set_ip_count (c : List ((String × Nat) × Nat)) (ip : String) (hour : Nat) (v : Nat) :
    List ((String × Nat) × Nat) :=
  ((ip, hour), v) :: c.filter (fun p => p.fst != (ip, hour))

/-- Response of one sms_send call: HTTP status (200 or the 429 raised by
HTTPException) and the sent flag of the success payload. -/
structure SendOutcome where
  status : Nat
  sent : Bool
deriving DecidableEq

/-- Embedding of sms_send (services/api/main.py lines 121-143): first the
per-phone cooldown check (429 without touching anything else), then the
INCR of the (ip, current UTC hour) counter followed by the threshold
comparison (429 with the incremented counter persisted), then code
generation, OTP insert and cooldown arming.  codeHash is the SHA-256 hex
digest of the generated code, ttl the sms_code_expire_seconds value, limit
the sms_ip_rate_limit_per_hour value, newId the fresh OTP primary key; key
TTLs (3600 s for the counter, cooldown seconds for the phone key) govern
state outside a single call and are not part of this per-call embedding. -/
def sms_send (s : SmsSendState) (phone ip : String) (hour : Nat) (codeHash : String)
    (now ttl limit : Nat) (newId : Nat) : SendOutcome × SmsSendState :=
  if s.phone_cooldown.contains phone then ({ status := 429, sent := false }, s)
  else
    if limit < get_ip_count s.ip_counters ip hour + 1 then
      ({ status := 429, sent := false },
        { s with ip_counters := set_ip_count s.ip_counters ip hour (get_ip_count s.ip_counters ip hour + 1) })
    else
      ({ status := 200, sent := true },
        { phone_cooldown := phone :: s.phone_cooldown
          ip_counters := set_ip_count s.ip_counters ip hour (get_ip_count s.ip_counters ip hour + 1)
          otps := s.otps ++ [{ id := newId, phone := phone, code_hash := codeHash,
                               expires_at := now + ttl, consumed_at := none, created_at := now }] })

/-- State for the C9 counterexample: the phone p1 is in its cooldown
window; the IP counter for ip1 in hour 7 is absent (reads as 0). -/
def c9_state : SmsSendState :=
  { phone_cooldown := ["p1"], ip_counters := [], otps := [] }

/-- C9 counterexample: a send attempt during the per-phone cooldown fails
with 429 but does not increment the per-IP hourly counter (the cooldown
check precedes the INCR), refuting the asserted increment on every send
attempt. -/
theorem c9_cooldown_skips_ip_counter :
    (sms_send c9_state "p1" "ip1" 7 "h" 0 300 20 1).fst.status = 429
    ∧ get_ip_count (sms_send c9_state "p1" "ip1" 7 "h" 0 300 20 1).snd.ip_counters "ip1" 7
      = get_ip_count c9_state.ip_counters "ip1" 7
    ∧ get_ip_count (sms_send c9_state "p1" "ip1" 7 "h" 0 300 20 1).snd.ip_counters "ip1" 7 = 0 :=
  ⟨rfl, rfl, rfl⟩

/-- Reading a counter right after writing it yields the written value. -/
theorem get_set_ip_count (c : List ((String × Nat) × Nat)) (ip : String) (hour v : Nat) :
    get_ip_count (set_ip_count c ip hour v) ip hour = v := by
  simp [get_ip_count, set_ip_count, List.find?]

/-- C9 (amended): a send during the per-phone cooldown fails with 429
before touching the per-IP counter or generating a code; otherwise the
(ip, current UTC hour) counter is incremented, and the send fails with 429
— still before code generation — exactly when the incremented counter
exceeds the threshold (default 20 per hour); only a send passing both
limits stores a new OTP and arms the cooldown. -/
theorem sms_send_spec (s : SmsSendState) (phone ip : String) (hour : Nat)
    (codeHash : String) (now ttl limit : Nat) (newId : Nat) :
    (s.phone_cooldown.contains phone = true →
        sms_send s phone ip hour codeHash now ttl limit newId
          = ({ status := 429, sent := false }, s))
    ∧ (s.phone_cooldown.contains phone = false →
        get_ip_count (sms_send s phone ip hour codeHash now ttl limit newId).snd.ip_counters ip hour
          = get_ip_count s.ip_counters ip hour + 1
        ∧ (limit < get_ip_count s.ip_counters ip hour + 1 →
            (sms_send s phone ip hour codeHash now ttl limit newId).fst
              = { status := 429, sent := false }
            ∧ (sms_send s phone ip hour codeHash now ttl limit newId).snd.otps = s.otps)
        ∧ (¬ limit < get_ip_count s.ip_counters ip hour + 1 →
            (sms_send s phone ip hour codeHash now ttl limit newId).fst
              = { status := 200, sent := true }
            ∧ (sms_send s phone ip hour codeHash now ttl limit newId).snd.otps
              = s.otps ++ [{ id := newId, phone := phone, code_hash := codeHash,
                             expires_at := now + ttl, consumed_at := none, created_at := now }]
            ∧ (sms_send s phone ip hour codeHash now ttl limit newId).snd.phone_cooldown
              = phone :: s.phone_cooldown))
    ∧ default_sms_settings.sms_ip_rate_limit_per_hour = 20 := by
  refine ⟨?_, ?_, rfl⟩
  · intro hcool
    have hmem : phone ∈ s.phone_cooldown := by simpa using hcool
    simp [sms_send, hmem]
  · intro hcool
    have hmem : phone ∉ s.phone_cooldown := by simpa using hcool
    by_cases hlim : limit < get_ip_count s.ip_counters ip hour + 1
    · refine ⟨?_, fun _ => ⟨?_, ?_⟩, fun hcontra => absurd hlim hcontra⟩
      · simp [sms_send, hmem, hlim, get_set_ip_count]
      · simp [sms_send, hmem, hlim]
      · simp [sms_send, hmem, hlim]
    · refine ⟨?_, fun hcontra => absurd hcontra hlim, fun _ => ⟨?_, ?_, ?_⟩⟩
      · simp [sms_send, hmem, hlim, get_set_ip_count]
      · simp [sms_send, hmem, hlim]
      · simp [sms_send, hmem, hlim]
      · simp [sms_send, hmem, hlim]

/-- Witness for the amended C9 theorem: no cooldown, empty counter, limit
20 — the send succeeds, storing the OTP and arming the cooldown. -/
theorem sms_send_spec_witness :
    (((([] : List String)).contains "p1") = true →
        sms_send { phone_cooldown := [], ip_counters := [], otps := [] } "p1" "ip1" 7 "h" 0 300 20 1
          = ({ status := 429, sent := false }, { phone_cooldown := [], ip_counters := [], otps := [] }))
    ∧ (((([] : List String)).contains "p1") = false →
        get_ip_count (sms_send { phone_cooldown := [], ip_counters := [], otps := [] }
            "p1" "ip1" 7 "h" 0 300 20 1).snd.ip_counters "ip1" 7
          = get_ip_count ([] : List ((String × Nat) × Nat)) "ip1" 7 + 1
        ∧ (20 < get_ip_count ([] : List ((String × Nat) × Nat)) "ip1" 7 + 1 →
            (sms_send { phone_cooldown := [], ip_counters := [], otps := [] }
                "p1" "ip1" 7 "h" 0 300 20 1).fst
              = { status := 429, sent := false }
            ∧ (sms_send { phone_cooldown := [], ip_counters := [], otps := [] }
                "p1" "ip1" 7 "h" 0 300 20 1).snd.otps = [])
        ∧ (¬ 20 < get_ip_count ([] : List ((String × Nat) × Nat)) "ip1" 7 + 1 →
            (sms_send { phone_cooldown := [], ip_counters := [], otps := [] }
                "p1" "ip1" 7 "h" 0 300 20 1).fst
              = { status := 200, sent := true }
            ∧ (sms_send { phone_cooldown := [], ip_counters := [], otps := [] }
                "p1" "ip1" 7 "h" 0 300 20 1).snd.otps
              = [] ++ [{ id := 1, phone := "p1", code_hash := "h",
                         expires_at := 0 + 300, consumed_at := none, created_at := 0 }]
            ∧ (sms_send { phone_cooldown := [], ip_counters := [], otps := [] }
                "p1" "ip1" 7 "h" 0 300 20 1).snd.phone_cooldown
              = ["p1"]))
    ∧ default_sms_settings.sms_ip_rate_limit_per_hour = 20 :=
  sms_send_spec { phone_cooldown := [], ip_counters := [], otps := [] } "p1" "ip1" 7 "h" 0 300 20 1

/-! ## Legacy access-token header handling
(services/api/main.py, get_current_user) -/

/-- Embedding of auth_header.replace("Bearer ", ""): every non-overlapping
occurrence of the seven characters of the marker is removed, scanning left
to right — not a prefix strip. -/
def removeBearer : List Char → List Char
  | 'B' :: 'e' :: 'a' :: 'r' :: 'e' :: 'r' :: ' ' :: rest => removeBearer rest
  | c :: rest => c :: removeBearer rest
  | [] => []

/-- The seven characters the replace call removes. -/
def bearer_marker : List Char := ['B', 'e', 'a', 'r', 'e', 'r', ' ']

/-- Embedding of get_current_user (services/api/main.py lines 101-113).
decodeFn abstracts decode_access_token on the token string (none embeds the
raised AuthError), findUser abstracts get_user; both are separate source
functions receiving only the processed token.  An absent or empty header
(falsy in Python) yields 401; error values embed the HTTPException status
codes. -/
def get_current_user (decodeFn : List Char → Option String)
    (findUser : String → Option UserRow) (header : Option (List Char)) :
    Except Nat UserRow :=
  match header with
  | none => Except.error 401
  | some h =>
    if h = [] then Except.error 401
    else
      match decodeFn (removeBearer h) with
      | none => Except.error 401
      | some uid =>
        match findUser uid with
        | none => Except.error 401
        | some u => Except.ok u

/-- C10: the dependency removes the substring rather than requiring a
prefix, so a request whose Authorization header is the bare token t is
decoded and authenticated exactly as one whose header is the marker
followed by t — for every decoder and user store, and every nonempty t
(an empty header is falsy and rejected up front). -/
theorem get_current_user_strips_substring
    (decodeFn : List Char → Option String) (findUser : String → Option UserRow)
    (t : List Char) (hne : t ≠ []) :
    get_current_user decodeFn findUser (some t)
      = get_current_user decodeFn findUser (some (bearer_marker ++ t)) := by
  have hstrip : removeBearer (bearer_marker ++ t) = removeBearer t := rfl
  have hne2 : bearer_marker ++ t ≠ [] := by simp [bearer_marker]
  simp [get_current_user, hstrip, hne, hne2]

/-- Decoder of the C10 witness: accepts exactly the token a. -/
def c10_decode : List Char → Option String :=
  fun s => if s = ['a'] then some "u1" else none

/-- User store of the C10 witness: u1 exists. -/
def c10_find : String → Option UserRow :=
  fun uid => if uid = "u1" then some { id := "u1", nickname := none, avatar_url := none } else none

/-- Witness for the C10 theorem: the bare header a authenticates exactly as
the header with the marker prepended. -/
theorem get_current_user_strips_substring_witness :
    get_current_user c10_decode c10_find (some ['a'])
      = get_current_user c10_decode c10_find (some (bearer_marker ++ ['a'])) :=
  get_current_user_strips_substring c10_decode c10_find ['a'] (by decide)

end LearnHub
